import Mathlib

/-!
Shallow embedding of `truffle-plugin-blockscout-verify` (src/verify.js and
src/constants.js) and proofs about its verification workflow.

HTTP traffic is modelled by an explicit environment (`ContractEnv`): each
network call the script makes takes its response from the environment, and
every issued request is logged in an explicit request trace (`Req`).  Thrown
JavaScript exceptions are modelled as `Except.error` values; the per-contract
`try`/`catch` of the entry point converts them into a `failed` outcome.

The helper module `./util` (enforce, enforceOrThrowError, enforceOrThrowWarn)
is not part of the sources; its semantics are modelled from the spec, see
`enforceOrThrowWarn` below.
-/

/-! ## constants.js -/

namespace RequestStatus

def OK : String := "1"

def KO : String := "0"

end RequestStatus

namespace VerificationStatus

def FAILED : String := "Fail - Unable to verify"

def NOT_VERIFIED : String := "Fail - Unable to verify"

def SUCCESS : String := "Pass - Verified"

def PENDING : String := "Pending in queue"

def ALREADY_VERIFIED : String := "Contract source code already verified"

def NOT_DEPLOYED : String := "Contract not deployed in the network"

end VerificationStatus

/-! ## Data model: options and artifacts -/

/-- The per-network record of a build artifact: `networks[id]` in verify.js.
`address = none` models a missing `address` field (an empty string is also
JS-falsy and is treated as such by `deployedAddress`). `links` is the ordered
list of linked-library (name, address) entries. -/
structure NetworkEntry where
  address : Option String
  links : List (String × String)
deriving Repr, DecidableEq

/-- A contract build artifact as read by verify.js. `networks = none` models
an artifact without a `networks` field (JS-falsy at line 30). -/
structure Artifact where
  contractName : String
  bytecode : String
  compilerVersion : String
  sourcePath : String
  networks : Option (List (String × NetworkEntry))
deriving Repr, DecidableEq

/-- The options record produced by `parseConfig`. -/
structure Options where
  apiUrl : String
  blockscoutUrl : String
  networkId : String
  networkName : String
  verifyPreamble : Option String
  optimizationUsed : Bool
  runs : Nat
deriving Repr, DecidableEq

/-- Lookup of `artifact.networks[networkId]` (with the `artifact.networks &&` guard). -/
def networkEntry (a : Artifact) (id : String) : Option NetworkEntry :=
  match a.networks with
  | none => none
  | some m => m.lookup id

/-- The truthiness chain of verify.js line 30:
`artifact.networks && artifact.networks[id] && artifact.networks[id].address`.
Returns the deployed address exactly when the whole chain is JS-truthy. -/
def deployedAddress (a : Artifact) (id : String) : Option String :=
  match networkEntry a id with
  | none => none
  | some e =>
    match e.address with
    | none => none
    | some addr => if addr = "" then none else some addr

/-- Modelled from the spec: `enforceOrThrowWarn` from the missing `./util`
module logs a warning and returns its condition without ever throwing, so that
a contract with no deployment record is "classified NotDeployed and skipped"
(spec §3 invariant) rather than treated as an error. -/
def enforceOrThrowWarn (cond : Bool) : Bool := cond

/-! ## fetchMergedSource (verify.js lines 193-206)

The preamble is prepended after `preamble.replace(/\*+\//g, '')`, which
deletes every (greedy) occurrence of one-or-more `*` followed by `/`. -/

/-- After an initial `*` has been seen, consume the remaining run of `*` and
then a `/`; `some rest` is the text after the match, `none` means the regex
`\*+\/` does not match here (a star run not immediately followed by `/`
cannot match with fewer stars either, since every shorter prefix of the run
is still followed by a `*`). -/
def matchStarSlash : List Char → Option (List Char)
  | '/' :: rest => some rest
  | '*' :: cs => matchStarSlash cs
  | _ => none

theorem matchStarSlash_length : ∀ l rest, matchStarSlash l = some rest →
    rest.length < l.length := by
  intro l
  induction l with
  | nil => intro rest h; simp [matchStarSlash] at h
  | cons c cs ih =>
    intro rest h
    by_cases hc : c = '/'
    · subst hc
      simp [matchStarSlash] at h
      simp [← h]
    · by_cases hs : c = '*'
      · subst hs
        have : matchStarSlash cs = some rest := h
        have := ih rest this
        simp
        omega
      · simp [matchStarSlash, hc, hs] at h

/-- JS `String.prototype.replace` with the global pattern, on a character list: scan left to
right, deleting each maximal star-run-then-slash. -/
def stripStarSlash (l : List Char) : List Char :=
  match l with
  | [] => []
  | c :: cs =>
    if c = '*' then
      if h : (matchStarSlash cs).isSome then
        stripStarSlash ((matchStarSlash cs).get h)
      else
        c :: stripStarSlash cs
    else
      c :: stripStarSlash cs
termination_by l.length
decreasing_by
  · have := matchStarSlash_length cs ((matchStarSlash cs).get h)
      (Option.some_get h).symm
    simp
    omega
  · simp
  · simp

/-- verify.js line 202: `options.verifyPreamble.replace(/\*+\//g, '')`. -/
def stripCommentTerminators (s : String) : String :=
  String.mk (stripStarSlash s.data)

/-- Whether the two-character terminator sequence `*/` occurs (contiguously)
in a character list. -/
def hasStarSlash : List Char → Bool
  | [] => false
  | [_] => false
  | a :: b :: rest => (a == '*' && b == '/') || hasStarSlash (b :: rest)

/-- Whether `*/` occurs in a string. -/
def containsStarSlash (s : String) : Bool :=
  hasStarSlash s.data

theorem stripStarSlash_nil : stripStarSlash [] = [] := by
  rw [stripStarSlash]

theorem stripStarSlash_star_some (cs rest : List Char)
    (hm : matchStarSlash cs = some rest) :
    stripStarSlash ('*' :: cs) = stripStarSlash rest := by
  rw [stripStarSlash]
  simp [hm]

theorem stripStarSlash_star_none (cs : List Char)
    (hm : matchStarSlash cs = none) :
    stripStarSlash ('*' :: cs) = '*' :: stripStarSlash cs := by
  rw [stripStarSlash]
  simp [hm]

theorem stripStarSlash_other (c : Char) (cs : List Char) (hc : c ≠ '*') :
    stripStarSlash (c :: cs) = c :: stripStarSlash cs := by
  rw [stripStarSlash]
  simp only [if_neg hc]

/-- When the regex does not match right after a leading `*`, the stripped
remainder never starts with `/`: a leading `/` would have made the regex
match, a leading `*` either starts its own match (absorbed into the failed
one, impossible) or is emitted as `*`, and any other character is emitted
as itself. -/
theorem stripStarSlash_head_ne_slash (cs : List Char)
    (h : matchStarSlash cs = none) :
    ∀ rest, stripStarSlash cs ≠ '/' :: rest := by
  intro rest
  match cs with
  | [] => simp [stripStarSlash_nil]
  | '/' :: ds => simp [matchStarSlash] at h
  | '*' :: ds =>
    have hds : matchStarSlash ds = none := h
    rw [stripStarSlash_star_none ds hds]
    simp
  | d :: ds =>
    by_cases hd : d = '*'
    · subst hd
      have hds : matchStarSlash ds = none := h
      rw [stripStarSlash_star_none ds hds]
      simp
    · rw [stripStarSlash_other d ds hd]
      intro hc
      have hdeq : d = '/' := (List.cons.injEq _ _ _ _ ▸ hc).1
      simp [hdeq, matchStarSlash] at h

/-- Helper for the strong induction: bounded-length form of
`hasStarSlash_stripStarSlash`. -/
theorem hasStarSlash_strip_aux :
    ∀ n (l : List Char), l.length ≤ n →
      hasStarSlash (stripStarSlash l) = false := by
  intro n
  induction n with
  | zero =>
    intro l hl
    have : l = [] := by cases l <;> simp_all
    subst this
    simp [stripStarSlash_nil, hasStarSlash]
  | succ n ih =>
    intro l hl
    match l with
    | [] => simp [stripStarSlash_nil, hasStarSlash]
    | c :: cs =>
      have hcs_le : cs.length ≤ n := by simp at hl; omega
      by_cases hc : c = '*'
      · subst hc
        cases hm : matchStarSlash cs with
        | some rest =>
          rw [stripStarSlash_star_some cs rest hm]
          exact ih rest
            (le_trans (Nat.le_of_lt (matchStarSlash_length cs rest hm)) hcs_le)
        | none =>
          rw [stripStarSlash_star_none cs hm]
          have hrec := ih cs hcs_le
          cases hsc : stripStarSlash cs with
          | nil => simp [hasStarSlash]
          | cons d rest =>
            have hd : d ≠ '/' := fun hdeq =>
              stripStarSlash_head_ne_slash cs hm rest (hdeq ▸ hsc)
            rw [hsc] at hrec
            rw [hasStarSlash]
            simp [hd, hrec]
      · rw [stripStarSlash_other c cs hc]
        have hrec := ih cs hcs_le
        cases hsc : stripStarSlash cs with
        | nil => simp [hasStarSlash]
        | cons d rest =>
          rw [hsc] at hrec
          rw [hasStarSlash]
          simp [hc, hrec]

/-- The global replace removes every occurrence of `*/`: its output contains
no `*/` at all. -/
theorem hasStarSlash_stripStarSlash (l : List Char) :
    hasStarSlash (stripStarSlash l) = false :=
  hasStarSlash_strip_aux l.length l le_rfl

/-- JS truthiness of an optional string (missing or empty is falsy). -/
def jsTruthy : Option String → Bool
  | none => false
  | some s => s ≠ ""

/-- verify.js lines 193-206, given whether `fs.existsSync(artifact.sourcePath)`
holds and the result `merged` of `sol-merger`'s `merge(artifact.sourcePath)`
(an external dependency, supplied by the environment). -/
def fetchMergedSource (a : Artifact) (opts : Options) (sourceExists : Bool)
    (merged : String) : Except String String :=
  if sourceExists then
    Except.ok
      (if jsTruthy opts.verifyPreamble then
        "/**\n" ++ stripCommentTerminators (opts.verifyPreamble.getD "")
          ++ "\n*/\n\n" ++ merged
      else merged)
  else
    Except.error
      ("Could not find " ++ a.contractName ++ " source file at " ++ a.sourcePath)

/-! ## HTTP environment and request trace -/

/-- One HTTP request issued by the script, in order.  `getSource` is the
status-check `GET action=getsourcecode`, `getTxList` the constructor-argument
`GET action=txlist`, `postVerify` the verification `POST action=verify` with
its form fields. -/
inductive Req where
  | getSource (address : String)
  | getTxList (address : String)
  | postVerify (fields : List (String × String))
deriving Repr, DecidableEq

/-- Response of one `getsourcecode` GET: a rejected promise (`throw`), or
`result[0]` whose optional `SourceCode` field is `sourceCode`. -/
inductive GetSourceResp where
  | throw
  | result (sourceCode : Option String)
deriving Repr, DecidableEq

/-- The fields of the `txlist` response the script reads:
`res.data.status` and `res.data.result[0].input`. -/
structure TxListData where
  status : String
  input : String
deriving Repr, DecidableEq

/-- Response of the `txlist` GET: rejection, or a response whose `data` is
absent/falsy (`resp none`), or present. -/
inductive TxListResp where
  | throw
  | resp (data : Option TxListData)
deriving Repr, DecidableEq

/-- Result of `kit.registry.addressFor(contractName)`: rejection or an
address. -/
inductive ProxyResp where
  | throw
  | addr (a : String)
deriving Repr, DecidableEq

/-- The fields of the verify POST response the script reads:
`res.data.status` and `res.data.result`. -/
structure PostData where
  status : String
  result : String
deriving Repr, DecidableEq

/-- Response of the verify POST: rejection, or a response whose `data` is
absent/falsy (`resp none`), or present. -/
inductive PostResp where
  | throw
  | resp (data : Option PostData)
deriving Repr, DecidableEq

/-- The environment one contract is processed against: the artifact read by
`getArtifact` (`none` models a missing artifact file, which throws), the
responses of the initial status-check GETs (`status1`, indexed by attempt),
the `txlist` response, the file-system and `sol-merger` view used by
`fetchMergedSource`, the proxy-registry lookup result, the verify POST
response, and the responses of the post-submission status-check GETs
(`status2`). -/
structure ContractEnv where
  artifact : Option Artifact
  status1 : Nat → GetSourceResp
  tx : TxListResp
  sourceExists : Bool
  mergedBody : String
  proxy : ProxyResp
  post : PostResp
  status2 : Nat → GetSourceResp

/-! ## checkVerificationStatus (verify.js lines 208-231) -/

/-- verify.js line 218:
`'SourceCode' in result.data.result[0] && result.data.result[0].SourceCode.length > 0`. -/
def sourceVerified : Option String → Bool
  | none => false
  | some s => s.length > 0

/-- The body of the retry loop, by the remaining number of iterations
(`fuel = retries - counter`).  Returns the result — `Except.error` models the
`throw` in the catch block — together with the trace of issued GETs. -/
def checkLoop (address : String) (env : Nat → GetSourceResp) (counter : Nat) :
    Nat → Except String String × List Req
  | 0 => (Except.ok VerificationStatus.NOT_VERIFIED, [])
  | fuel + 1 =>
    match env counter with
    | GetSourceResp.throw =>
      (Except.error "Failed to get verification status from Blockscout API",
        [Req.getSource address])
    | GetSourceResp.result sc =>
      if sourceVerified sc then
        (Except.ok VerificationStatus.ALREADY_VERIFIED, [Req.getSource address])
      else
        let r := checkLoop address env (counter + 1) fuel
        (r.1, Req.getSource address :: r.2)

/-- verify.js line 211: `const retries = 5`. -/
def retries : Nat := 5

/-- verify.js lines 208-231: poll `getsourcecode` up to `retries` times,
returning `ALREADY_VERIFIED` on a non-empty `SourceCode`, throwing on a
transport error, and `NOT_VERIFIED` when the loop runs out. -/
def checkVerificationStatus (address : String) (env : Nat → GetSourceResp) :
    Except String String × List Req :=
  checkLoop address env 0 retries

/-! ## fetchConstructorValues, getProxyAddress, sendVerifyRequest -/

/-- verify.js lines 178-191.  The `txlist` GET is issued unconditionally
(it is the first thing the function does), so it heads the trace in every
branch. -/
def fetchConstructorValues (a : Artifact) (address : String) (tx : TxListResp) :
    Except String String × List Req :=
  match tx with
  | TxListResp.throw =>
    (Except.error "Failed Fetching constructor values from Blockscout API",
      [Req.getTxList address])
  | TxListResp.resp none =>
    (Except.error "Failed to fetch constructor arguments", [Req.getTxList address])
  | TxListResp.resp (some d) =>
    if d.status = RequestStatus.OK then
      (Except.ok (d.input.drop a.bytecode.length), [Req.getTxList address])
    else
      (Except.error "Failed to fetch constructor arguments", [Req.getTxList address])

/-- verify.js lines 233-240: the proxy-registry lookup never raises — the
catch turns any rejection into `false`, modelled as `none`. -/
def getProxyAddress (resp : ProxyResp) : Option String :=
  match resp with
  | ProxyResp.throw => none
  | ProxyResp.addr a => some a

/-- JS `String.prototype.replace` with a plain-string pattern removes only
the first occurrence; used for `.replace('.Emscripten.clang', '')`. -/
def removeFirstOccurrence (pat : List Char) : List Char → List Char
  | [] => []
  | c :: cs =>
    if pat.isPrefixOf (c :: cs) then (c :: cs).drop pat.length
    else c :: removeFirstOccurrence pat cs

/-- verify.js line 151: `v${artifact.compiler.version.replace('.Emscripten.clang', '')}`. -/
def compilerVersionField (a : Artifact) : String :=
  "v" ++ String.mk (removeFirstOccurrence ".Emscripten.clang".data a.compilerVersion.data)

/-- verify.js lines 162-167: serialize the linked-library entries with their
index, enforcing `i < 5` for each entry before adding its two fields. -/
def linkLibraries : List (String × String) → Nat → Except String (List (String × String))
  | [], _ => Except.ok []
  | (k, v) :: rest, i =>
    if i < 5 then
      match linkLibraries rest (i + 1) with
      | Except.ok fields =>
        Except.ok (("library" ++ toString (i + 1) ++ "Name", k)
          :: ("library" ++ toString (i + 1) ++ "Address", v) :: fields)
      | Except.error e => Except.error e
    else
      Except.error "Can not link more than 5 libraries with Blockscout API"

/-- The value of `entry.address` as used once the entry point has already
established the address is truthy (verify.js lines 136, 141, 179). -/
def entryAddress (e : NetworkEntry) : String :=
  e.address.getD ""

/-- verify.js lines 140-176: build and send the verification request.
Returns the POST response (the `try`/`catch` around `axios.post` returns the
promise without awaiting it, so a rejection is NOT caught here — it surfaces
at the caller's `await`, modelled by returning `env.post` unchanged), or the
error thrown while constructing the request, together with the trace of
issued HTTP requests. -/
def sendVerifyRequest (a : Artifact) (opts : Options) (address : String)
    (env : ContractEnv) : Except String PostResp × List Req :=
  let cv := fetchConstructorValues a address env.tx
  match cv.1 with
  | Except.error e => (Except.error e, cv.2)
  | Except.ok encodedConstructorArgs =>
    match fetchMergedSource a opts env.sourceExists env.mergedBody with
    | Except.error e => (Except.error e, cv.2)
    | Except.ok mergedSource =>
      let contractProxyAddress := getProxyAddress env.proxy
      let base : List (String × String) :=
        [("addressHash", address),
         ("contractSourceCode", mergedSource),
         ("name", a.contractName),
         ("compilerVersion", compilerVersionField a),
         ("optimization", toString opts.optimizationUsed),
         ("optimizationRuns", toString opts.runs),
         ("constructorArguments", encodedConstructorArgs)]
      let withProxy :=
        if jsTruthy contractProxyAddress then
          base ++ [("proxyAddress", contractProxyAddress.getD "")]
        else base
      let links := (networkEntry a opts.networkId).elim [] NetworkEntry.links
      match linkLibraries links 0 with
      | Except.error e => (Except.error e, cv.2)
      | Except.ok libraryFields =>
        (Except.ok env.post, cv.2 ++ [Req.postVerify (withProxy ++ libraryFields)])

/-- verify.js lines 122-138: submit and reconcile the POST response.  A falsy
`res.data` throws a connectivity error; `result === ALREADY_VERIFIED` short
circuits; a non-OK `status` throws `res.data.result`; otherwise the status
endpoint is polled again (`env.status2`). -/
def verifyContract (a : Artifact) (opts : Options) (env : ContractEnv) :
    Except String String × List Req :=
  match networkEntry a opts.networkId with
  | none =>
    (Except.error ("No instance of contract " ++ a.contractName
      ++ " found for network id " ++ opts.networkId
      ++ " and network name " ++ opts.networkName), [])
  | some entry =>
    let address := entryAddress entry
    let sent := sendVerifyRequest a opts address env
    match sent.1 with
    | Except.error e => (Except.error e, sent.2)
    | Except.ok PostResp.throw =>
      (Except.error ("Failed to connect to Blockscout API at url "
        ++ opts.apiUrl), sent.2)
    | Except.ok (PostResp.resp none) =>
      (Except.error ("Failed to connect to Blockscout API at url "
        ++ opts.apiUrl), sent.2)
    | Except.ok (PostResp.resp (some d)) =>
      if d.result = VerificationStatus.ALREADY_VERIFIED then
        (Except.ok VerificationStatus.ALREADY_VERIFIED, sent.2)
      else if d.status = RequestStatus.OK then
        let chk := checkVerificationStatus address env.status2
        (chk.1, sent.2 ++ chk.2)
      else
        (Except.error d.result, sent.2)

/-- How one contract of the loop in verify.js lines 24-63 ends up being
classified: pushed to `notDeployedContracts`, skipped because the initial
status check said it is already verified (pushed to no list), pushed to
`failedContracts` (either a caught exception or a `NOT_VERIFIED` status), or
pushed to `deployedContracts` with its final status line. -/
inductive ContractOutcome where
  | notDeployed
  | skippedVerified
  | failed
  | deployed (status : String)
deriving Repr, DecidableEq

/-- verify.js line 40: the explorer link shown for a verified contract. -/
def explorerLink (opts : Options) (address : String) : String :=
  opts.blockscoutUrl ++ "/address/" ++ address ++ "/contracts"

/-- The body of the per-contract loop (verify.js lines 26-61), including the
`try`/`catch` that converts any thrown error into a `failed` classification.
Returns the classification and the trace of HTTP requests issued for this
contract. -/
def processContract (opts : Options) (env : ContractEnv) :
    ContractOutcome × List Req :=
  match env.artifact with
  | none => (ContractOutcome.failed, [])
  | some a =>
    match deployedAddress a opts.networkId with
    | none => (ContractOutcome.notDeployed, [])
    | some contractAddress =>
      let chk := checkVerificationStatus contractAddress env.status1
      match chk.1 with
      | Except.error _ => (ContractOutcome.failed, chk.2)
      | Except.ok verStatus =>
        if verStatus = VerificationStatus.ALREADY_VERIFIED then
          (ContractOutcome.skippedVerified, chk.2)
        else
          let ver := verifyContract a opts env
          match ver.1 with
          | Except.error _ => (ContractOutcome.failed, chk.2 ++ ver.2)
          | Except.ok status =>
            if status = VerificationStatus.NOT_VERIFIED then
              (ContractOutcome.failed, chk.2 ++ ver.2)
            else
              (ContractOutcome.deployed
                (status ++ ": " ++ explorerLink opts contractAddress),
                chk.2 ++ ver.2)

/-- The three aggregation lists of the entry point and its final result:
`enforceOrThrowError(failedContracts.length === 0, ...)` at verify.js
lines 68-71 throws exactly when the failed list is non-empty. -/
structure RunResult where
  failedContracts : List String
  notDeployedContracts : List String
  deployedContracts : List String
  finalResult : Except String Unit
deriving Repr

/-- One step of the contract loop: push the contract's name onto the list its
classification selects. -/
def runStep (opts : Options) (acc : List String × List String × List String)
    (c : String × ContractEnv) : List String × List String × List String :=
  match (processContract opts c.2).1 with
  | ContractOutcome.notDeployed => (acc.1, acc.2.1 ++ [c.1], acc.2.2)
  | ContractOutcome.skippedVerified => acc
  | ContractOutcome.failed => (acc.1 ++ [c.1], acc.2.1, acc.2.2)
  | ContractOutcome.deployed _ => (acc.1, acc.2.1, acc.2.2 ++ [c.1])

/-- verify.js lines 11-72 after config parsing: process every requested
contract in order (no contract aborts the loop — every error is caught inside
it) and fail the invocation iff `failedContracts` is non-empty. -/
def runAll (opts : Options) (contracts : List (String × ContractEnv)) :
    RunResult :=
  let acc := contracts.foldl (runStep opts) ([], [], [])
  { failedContracts := acc.1
    notDeployedContracts := acc.2.1
    deployedContracts := acc.2.2
    finalResult :=
      if acc.1.length = 0 then Except.ok ()
      else
        Except.error ("Failed to verify " ++ toString acc.1.length
          ++ " contract(s)") }

/-! ## getArtifact (verify.js lines 115-120)

The artifact is loaded with `require(artifactPath)`.  Node's `require`
caches modules by resolved path, so the read is NOT cache-free: the
existence check (`fs.existsSync`) consults the current disk, but the parsed
contents come from the require cache when the path was loaded before. -/

/-- verify.js line 117: `${options.contractsBuildDir}/${contractName}.json`. -/
def artifactPath (contractsBuildDir contractName : String) : String :=
  contractsBuildDir ++ "/" ++ contractName ++ ".json"

/-- The current on-disk artifact files, path → parsed contents. -/
structure Disk where
  files : List (String × Artifact)
deriving Repr, DecidableEq

/-- Node's `require` cache, path → contents as of the first load. -/
structure RequireCache where
  entries : List (String × Artifact)
deriving Repr, DecidableEq

/-- verify.js lines 115-120: check `fs.existsSync` against the current disk,
then `require(artifactPath)` — returning the cached module when present,
otherwise reading the disk and caching the result. -/
def getArtifact (contractName contractsBuildDir : String) (disk : Disk)
    (cache : RequireCache) : Except String Artifact × RequireCache :=
  let p := artifactPath contractsBuildDir contractName
  match disk.files.lookup p with
  | none =>
    (Except.error ("Could not find " ++ contractName ++ " artifact at " ++ p),
      cache)
  | some onDisk =>
    match cache.entries.lookup p with
    | some cached => (Except.ok cached, cache)
    | none => (Except.ok onDisk, ⟨cache.entries ++ [(p, onDisk)]⟩)

/-! ## fromDir (verify.js lines 252-272) -/

/-- A directory entry as seen by `fs.readdirSync` + `fs.lstatSync`: a plain
file or a subdirectory with its own entries. -/
inductive FsEntry where
  | file (name : String)
  | dir (name : String) (entries : List FsEntry)
deriving Repr

/-- Index of the last `.` in a character list, if any. -/
def lastDotIdx : List Char → Option Nat
  | [] => none
  | c :: cs =>
    match lastDotIdx cs with
    | some i => some (i + 1)
    | none => if c = '.' then some 0 else none

/-- Node `path.parse(f).ext` for a plain basename: the suffix from the last dot,
empty when there is no dot or the only dot is the leading character. -/
def parseExt (f : String) : String :=
  match lastDotIdx f.data with
  | some i => if i = 0 then "" else String.mk (f.data.drop i)
  | none => ""

/-- Node `path.parse(f).name` for a plain basename: everything before the last
dot (the whole name when there is no dot or it is the leading character). -/
def parseName (f : String) : String :=
  match lastDotIdx f.data with
  | some i => if i = 0 then f else String.mk (f.data.take i)
  | none => f

/-- verify.js lines 252-272 on the listed entries of an existing folder.
For a subdirectory the source calls `fromDir(f, filter)` — on the bare entry
name, unawaited — and discards the returned promise, so nothing from the
recursive call ever reaches `filesFiltered`; the discarded call is kept here
as a dead `let`. -/
def fromDir : List FsEntry → String → List String
  | [], _ => []
  | FsEntry.file f :: rest, filter =>
    if parseExt f = filter then parseName f :: fromDir rest filter
    else fromDir rest filter
  | FsEntry.dir _ sub :: rest, filter =>
    let _ := fromDir sub filter
    fromDir rest filter

/-! ## Lemmas about the status-check poll loop -/

/-- A `getsourcecode` response that neither throws nor reports verified
source: the loop keeps polling on it. -/
def respUnverified : GetSourceResp → Bool
  | GetSourceResp.throw => false
  | GetSourceResp.result sc => !(sourceVerified sc)

theorem checkLoop_length (address : String) (env : Nat → GetSourceResp) :
    ∀ fuel counter, (checkLoop address env counter fuel).2.length ≤ fuel := by
  intro fuel
  induction fuel with
  | zero => intro counter; simp [checkLoop]
  | succ fuel ih =>
    intro counter
    rw [checkLoop]
    cases env counter with
    | throw => simp
    | result sc =>
      by_cases hv : sourceVerified sc
      · simp [hv]
      · simp only [hv]
        simp
        exact ih (counter + 1)

theorem checkLoop_ok (address : String) (env : Nat → GetSourceResp) :
    ∀ fuel counter s, (checkLoop address env counter fuel).1 = Except.ok s →
      s = VerificationStatus.ALREADY_VERIFIED
        ∨ s = VerificationStatus.NOT_VERIFIED := by
  intro fuel
  induction fuel with
  | zero =>
    intro counter s h
    simp [checkLoop] at h
    exact Or.inr h.symm
  | succ fuel ih =>
    intro counter s h
    rw [checkLoop] at h
    cases henv : env counter with
    | throw => rw [henv] at h; simp at h
    | result sc =>
      rw [henv] at h
      by_cases hv : sourceVerified sc
      · simp [hv] at h
        exact Or.inl h.symm
      · simp only [hv, Bool.false_eq_true, if_false] at h
        exact ih (counter + 1) s h

theorem checkLoop_unverified (address : String) (env : Nat → GetSourceResp) :
    ∀ fuel counter, (∀ i, i < fuel → respUnverified (env (counter + i)) = true) →
      (checkLoop address env counter fuel).1
        = Except.ok VerificationStatus.NOT_VERIFIED := by
  intro fuel
  induction fuel with
  | zero => intro counter _; simp [checkLoop]
  | succ fuel ih =>
    intro counter hall
    have h0 : respUnverified (env counter) = true := by
      have := hall 0 (Nat.succ_pos fuel)
      simpa using this
    rw [checkLoop]
    cases henv : env counter with
    | throw => rw [henv] at h0; simp [respUnverified] at h0
    | result sc =>
      rw [henv] at h0
      have hv : sourceVerified sc = false := by
        simp [respUnverified] at h0
        exact h0
      simp only [hv, Bool.false_eq_true, if_false]
      exact ih (counter + 1) fun i hi => by
        have := hall (i + 1) (Nat.succ_lt_succ hi)
        simpa [Nat.add_assoc, Nat.add_comm 1 i] using this

theorem checkLoop_reqs (address : String) (env : Nat → GetSourceResp) :
    ∀ fuel counter r, r ∈ (checkLoop address env counter fuel).2 →
      r = Req.getSource address := by
  intro fuel
  induction fuel with
  | zero => intro counter r h; simp [checkLoop] at h
  | succ fuel ih =>
    intro counter r h
    rw [checkLoop] at h
    cases henv : env counter with
    | throw => rw [henv] at h; simpa using h
    | result sc =>
      rw [henv] at h
      by_cases hv : sourceVerified sc
      · simp [hv] at h
        exact h
      · simp only [hv, Bool.false_eq_true, if_false, List.mem_cons] at h
        cases h with
        | inl h => exact h
        | inr h => exact ih (counter + 1) r h

/-- When the very first `getsourcecode` response reports verified source, the
loop stops immediately with `ALREADY_VERIFIED` after a single GET. -/
theorem checkVerificationStatus_first_verified (address : String)
    (env : Nat → GetSourceResp) (sc : Option String)
    (h0 : env 0 = GetSourceResp.result sc) (hv : sourceVerified sc = true) :
    checkVerificationStatus address env
      = (Except.ok VerificationStatus.ALREADY_VERIFIED,
         [Req.getSource address]) := by
  show checkLoop address env 0 retries = _
  rw [show retries = 4 + 1 from rfl, checkLoop, h0]
  simp [hv]

/-- C3: the poll loop of `checkVerificationStatus` performs at most 5
status-check attempts, its result is never the `PENDING` status, and when
every one of the 5 attempts reports the contract unverified the returned
outcome is the not-verified (`Fail - Unable to verify`) status. -/
theorem checkVerificationStatus_bounded_no_pending (address : String)
    (env : Nat → GetSourceResp) :
    (checkVerificationStatus address env).2.length ≤ 5
    ∧ (checkVerificationStatus address env).1
        ≠ Except.ok VerificationStatus.PENDING
    ∧ ((∀ i, i < 5 → respUnverified (env i) = true) →
        (checkVerificationStatus address env).1
          = Except.ok VerificationStatus.NOT_VERIFIED) := by
  refine ⟨checkLoop_length address env retries 0, ?_, ?_⟩
  · intro h
    rcases checkLoop_ok address env retries 0 _ h with hav | hnv
    · exact absurd hav (by decide)
    · exact absurd hnv (by decide)
  · intro hall
    exact checkLoop_unverified address env retries 0 (by simpa using hall)

/-- Witness for C3 at the environment that always answers with a missing
`SourceCode` field: the loop returns the not-verified status. -/
theorem checkVerificationStatus_bounded_no_pending_witness :
    (checkVerificationStatus "0xabc"
        (fun _ => GetSourceResp.result none)).1
      = Except.ok VerificationStatus.NOT_VERIFIED :=
  (checkVerificationStatus_bounded_no_pending "0xabc"
    (fun _ => GetSourceResp.result none)).2.2 (by decide)

/-- C10: whenever `checkVerificationStatus` returns normally its result is
the already-verified status or the not-verified status; the `SUCCESS`
(`Pass - Verified`) and `PENDING` status values are never returned. -/
theorem checkVerificationStatus_two_outcomes (address : String)
    (env : Nat → GetSourceResp) (s : String)
    (h : (checkVerificationStatus address env).1 = Except.ok s) :
    (s = VerificationStatus.ALREADY_VERIFIED
      ∨ s = VerificationStatus.NOT_VERIFIED)
    ∧ s ≠ VerificationStatus.SUCCESS ∧ s ≠ VerificationStatus.PENDING := by
  have hs := checkLoop_ok address env retries 0 s h
  refine ⟨hs, ?_, ?_⟩
  · rcases hs with hav | hnv
    · subst hav; decide
    · subst hnv; decide
  · rcases hs with hav | hnv
    · subst hav; decide
    · subst hnv; decide

/-- Witness for C10 at the environment whose first answer has verified
source: the normal return is the already-verified status, which is neither
`SUCCESS` nor `PENDING`. -/
theorem checkVerificationStatus_two_outcomes_witness :
    VerificationStatus.ALREADY_VERIFIED ≠ VerificationStatus.SUCCESS
    ∧ VerificationStatus.ALREADY_VERIFIED ≠ VerificationStatus.PENDING :=
  (checkVerificationStatus_two_outcomes "0xabc"
    (fun _ => GetSourceResp.result (some "pragma"))
    VerificationStatus.ALREADY_VERIFIED (by rfl)).2

/-! ## Lemmas about the per-run aggregation lists -/

/-- Whether a classification pushes the name onto `failedContracts`. -/
def isFailedOutcome : ContractOutcome → Bool
  | ContractOutcome.failed => true
  | _ => false

/-- Whether a classification pushes the name onto `notDeployedContracts`. -/
def isNotDeployedOutcome : ContractOutcome → Bool
  | ContractOutcome.notDeployed => true
  | _ => false

/-- Whether a classification pushes the name onto `deployedContracts`. -/
def isDeployedOutcome : ContractOutcome → Bool
  | ContractOutcome.deployed _ => true
  | _ => false

theorem foldl_runStep (opts : Options) :
    ∀ (cs : List (String × ContractEnv)) (f nd d : List String),
      cs.foldl (runStep opts) (f, nd, d)
        = (f ++ (cs.filter fun c =>
            isFailedOutcome (processContract opts c.2).1).map Prod.fst,
           nd ++ (cs.filter fun c =>
            isNotDeployedOutcome (processContract opts c.2).1).map Prod.fst,
           d ++ (cs.filter fun c =>
            isDeployedOutcome (processContract opts c.2).1).map Prod.fst) := by
  intro cs
  induction cs with
  | nil => intro f nd d; simp
  | cons c cs ih =>
    intro f nd d
    rw [List.foldl_cons]
    cases ho : (processContract opts c.2).1 with
    | notDeployed =>
      simp only [runStep, ho]
      rw [ih]
      simp [List.filter_cons, ho, isFailedOutcome, isNotDeployedOutcome,
        isDeployedOutcome]
    | skippedVerified =>
      simp only [runStep, ho]
      rw [ih]
      simp [List.filter_cons, ho, isFailedOutcome, isNotDeployedOutcome,
        isDeployedOutcome]
    | failed =>
      simp only [runStep, ho]
      rw [ih]
      simp [List.filter_cons, ho, isFailedOutcome, isNotDeployedOutcome,
        isDeployedOutcome]
    | deployed s =>
      simp only [runStep, ho]
      rw [ih]
      simp [List.filter_cons, ho, isFailedOutcome, isNotDeployedOutcome,
        isDeployedOutcome]

theorem runAll_failedContracts (opts : Options)
    (cs : List (String × ContractEnv)) :
    (runAll opts cs).failedContracts
      = (cs.filter fun c =>
          isFailedOutcome (processContract opts c.2).1).map Prod.fst := by
  simp [runAll, foldl_runStep]

theorem runAll_notDeployedContracts (opts : Options)
    (cs : List (String × ContractEnv)) :
    (runAll opts cs).notDeployedContracts
      = (cs.filter fun c =>
          isNotDeployedOutcome (processContract opts c.2).1).map Prod.fst := by
  simp [runAll, foldl_runStep]

theorem runAll_deployedContracts (opts : Options)
    (cs : List (String × ContractEnv)) :
    (runAll opts cs).deployedContracts
      = (cs.filter fun c =>
          isDeployedOutcome (processContract opts c.2).1).map Prod.fst := by
  simp [runAll, foldl_runStep]

theorem runAll_finalResult_ok_iff (opts : Options)
    (cs : List (String × ContractEnv)) :
    (runAll opts cs).finalResult = Except.ok ()
      ↔ (runAll opts cs).failedContracts = [] := by
  show (if (cs.foldl (runStep opts) ([], [], [])).1.length = 0 then _ else _)
      = Except.ok () ↔ _
  by_cases h : (cs.foldl (runStep opts) ([], [], [])).1.length = 0
  · simp [runAll, h, List.length_eq_zero]
    exact List.length_eq_zero.mp h
  · simp [runAll, h]
    intro hc
    exact h (by simp [hc])

/-- When the very first `getsourcecode` response is a transport error, the
loop throws immediately after a single GET. -/
theorem checkVerificationStatus_first_throw (address : String)
    (env : Nat → GetSourceResp) (h0 : env 0 = GetSourceResp.throw) :
    checkVerificationStatus address env
      = (Except.error "Failed to get verification status from Blockscout API",
         [Req.getSource address]) := by
  show checkLoop address env 0 retries = _
  rw [show retries = 4 + 1 from rfl, checkLoop, h0]

/-! ## Claim theorems: the per-contract loop -/

/-- C1: a contract whose artifact has no deployment record for the target
network id is classified `notDeployed` with an empty request trace (no HTTP
request of any kind), and its name is added to the not-deployed list of any
run that processes it. -/
theorem notDeployed_no_http (opts : Options) (env : ContractEnv) (a : Artifact)
    (ha : env.artifact = some a)
    (hnd : deployedAddress a opts.networkId = none) :
    processContract opts env = (ContractOutcome.notDeployed, [])
    ∧ ∀ (name : String) (cs : List (String × ContractEnv)),
        (name, env) ∈ cs →
        name ∈ (runAll opts cs).notDeployedContracts := by
  have hp : processContract opts env = (ContractOutcome.notDeployed, []) := by
    simp [processContract, ha, hnd]
  refine ⟨hp, ?_⟩
  intro name cs hmem
  rw [runAll_notDeployedContracts]
  refine List.mem_map.mpr ⟨(name, env), ?_, rfl⟩
  exact List.mem_filter.mpr ⟨hmem, by simp [hp, isNotDeployedOutcome]⟩

def optsBase : Options :=
  { apiUrl := "https://blockscout.com/poa/sokol/api"
    blockscoutUrl := "https://blockscout.com/poa/sokol"
    networkId := "77"
    networkName := "sokol"
    verifyPreamble := none
    optimizationUsed := false
    runs := 200 }

def artNoNetworks : Artifact :=
  { contractName := "Token"
    bytecode := "0x6080"
    compilerVersion := "0.5.8+commit.23d335f2"
    sourcePath := "contracts/Token.sol"
    networks := none }

def envNotDeployed : ContractEnv :=
  { artifact := some artNoNetworks
    status1 := fun _ => GetSourceResp.result none
    tx := TxListResp.throw
    sourceExists := false
    mergedBody := ""
    proxy := ProxyResp.throw
    post := PostResp.throw
    status2 := fun _ => GetSourceResp.result none }

/-- Witness for C1: an artifact without a `networks` field, on network id 77. -/
theorem notDeployed_no_http_witness :
    processContract optsBase envNotDeployed = (ContractOutcome.notDeployed, [])
    ∧ "Token" ∈ (runAll optsBase
        [("Token", envNotDeployed)]).notDeployedContracts :=
  ⟨(notDeployed_no_http optsBase envNotDeployed artNoNetworks rfl rfl).1,
   (notDeployed_no_http optsBase envNotDeployed artNoNetworks rfl rfl).2
     "Token" [("Token", envNotDeployed)] (List.mem_singleton.mpr rfl)⟩

/-- C2: a contract whose initial status-check GET reports a non-empty
verified `SourceCode` is classified as already verified and skipped; the
request trace for it is exactly the one status-check GET — in particular no
verification POST is issued. -/
theorem alreadyVerified_only_one_get (opts : Options) (env : ContractEnv)
    (a : Artifact) (addr : String) (sc : Option String)
    (ha : env.artifact = some a)
    (hd : deployedAddress a opts.networkId = some addr)
    (h0 : env.status1 0 = GetSourceResp.result sc)
    (hv : sourceVerified sc = true) :
    processContract opts env
      = (ContractOutcome.skippedVerified, [Req.getSource addr]) := by
  have hchk := checkVerificationStatus_first_verified addr env.status1 sc h0 hv
  simp [processContract, ha, hd, hchk]

def artDeployed : Artifact :=
  { contractName := "Token"
    bytecode := "0x6080"
    compilerVersion := "0.5.8+commit.23d335f2"
    sourcePath := "contracts/Token.sol"
    networks := some [("77", { address := some "0xfeed", links := [] })] }

def envAlreadyVerified : ContractEnv :=
  { artifact := some artDeployed
    status1 := fun _ => GetSourceResp.result (some "pragma solidity")
    tx := TxListResp.throw
    sourceExists := false
    mergedBody := ""
    proxy := ProxyResp.throw
    post := PostResp.throw
    status2 := fun _ => GetSourceResp.result none }

/-- Witness for C2: a deployed artifact whose first status check reports
verified source. -/
theorem alreadyVerified_only_one_get_witness :
    processContract optsBase envAlreadyVerified
      = (ContractOutcome.skippedVerified, [Req.getSource "0xfeed"]) :=
  alreadyVerified_only_one_get optsBase envAlreadyVerified artDeployed
    "0xfeed" (some "pragma solidity") rfl rfl rfl rfl

/-- C5: the aggregation lists of a run are computed contract-by-contract —
each contract's classification is a function of that contract's own
environment alone, every contract of the invocation is classified no matter
how earlier contracts fared, and the invocation's final result is an error
exactly when the failed list is non-empty.  Representative per-contract
errors (a missing artifact; a connectivity failure on the status check) are
converted into a `failed` classification rather than aborting the run. -/
theorem perContract_error_isolation (opts : Options)
    (cs : List (String × ContractEnv)) :
    (runAll opts cs).failedContracts
      = (cs.filter fun c =>
          isFailedOutcome (processContract opts c.2).1).map Prod.fst
    ∧ (runAll opts cs).notDeployedContracts
      = (cs.filter fun c =>
          isNotDeployedOutcome (processContract opts c.2).1).map Prod.fst
    ∧ (runAll opts cs).deployedContracts
      = (cs.filter fun c =>
          isDeployedOutcome (processContract opts c.2).1).map Prod.fst
    ∧ ((runAll opts cs).finalResult = Except.ok ()
        ↔ (runAll opts cs).failedContracts = [])
    ∧ (∀ env : ContractEnv, env.artifact = none →
        (processContract opts env).1 = ContractOutcome.failed)
    ∧ (∀ (env : ContractEnv) (a : Artifact) (addr : String),
        env.artifact = some a →
        deployedAddress a opts.networkId = some addr →
        env.status1 0 = GetSourceResp.throw →
        (processContract opts env).1 = ContractOutcome.failed) := by
  refine ⟨runAll_failedContracts opts cs, runAll_notDeployedContracts opts cs,
    runAll_deployedContracts opts cs, runAll_finalResult_ok_iff opts cs,
    ?_, ?_⟩
  · intro env ha
    simp [processContract, ha]
  · intro env a addr ha hd hthrow
    have hchk := checkVerificationStatus_first_throw addr env.status1 hthrow
    simp [processContract, ha, hd, hchk]

def envMissingArtifact : ContractEnv :=
  { artifact := none
    status1 := fun _ => GetSourceResp.result none
    tx := TxListResp.throw
    sourceExists := false
    mergedBody := ""
    proxy := ProxyResp.throw
    post := PostResp.throw
    status2 := fun _ => GetSourceResp.result none }

/-- Witness for C5: a contract with a missing artifact file is classified
`failed`. -/
theorem perContract_error_isolation_witness :
    (processContract optsBase envMissingArtifact).1 = ContractOutcome.failed :=
  (perContract_error_isolation optsBase []).2.2.2.2.1 envMissingArtifact rfl

/-! ## Claim theorems: preamble stripping -/

/-- C6: the preamble is prepended only after every occurrence of the
comment-terminator sequence has been removed — the stripped preamble contains
no occurrence of the terminator at all, and the merged source is the comment
block built from the stripped preamble followed by the merged body. -/
theorem preamble_terminators_stripped (p : String) :
    containsStarSlash (stripCommentTerminators p) = false
    ∧ ∀ (a : Artifact) (opts : Options) (merged : String),
        opts.verifyPreamble = some p → p ≠ "" →
        fetchMergedSource a opts true merged
          = Except.ok ("/**\n" ++ stripCommentTerminators p
              ++ "\n*/\n\n" ++ merged) := by
  constructor
  · show hasStarSlash (String.mk (stripStarSlash p.data)).data = false
    exact hasStarSlash_stripStarSlash p.data
  · intro a opts merged hpre hp
    simp [fetchMergedSource, hpre, jsTruthy, hp]

def optsPreamble : Options :=
  { optsBase with verifyPreamble := some "SPDX*/header**/tail" }

/-- Witness for C6 at the preamble `SPDX*/header**/tail`. -/
theorem preamble_terminators_stripped_witness :
    containsStarSlash (stripCommentTerminators "SPDX*/header**/tail") = false
    ∧ fetchMergedSource artDeployed optsPreamble true "contract T"
        = Except.ok ("/**\n" ++ stripCommentTerminators "SPDX*/header**/tail"
            ++ "\n*/\n\n" ++ "contract T") :=
  ⟨(preamble_terminators_stripped "SPDX*/header**/tail").1,
   (preamble_terminators_stripped "SPDX*/header**/tail").2 artDeployed
     optsPreamble "contract T" rfl (by decide)⟩

/-! ## Claim theorems: the library limit -/

theorem fetchConstructorValues_reqs (a : Artifact) (address : String)
    (tx : TxListResp) :
    (fetchConstructorValues a address tx).2 = [Req.getTxList address] := by
  cases tx with
  | throw => rfl
  | resp data =>
    cases data with
    | none => rfl
    | some d =>
      by_cases h : d.status = RequestStatus.OK <;>
        simp [fetchConstructorValues, h]

/-- The indexed enforcement of `i < 5` fails as soon as the entries starting
at index `i` overflow the cap. -/
theorem linkLibraries_overflow :
    ∀ (links : List (String × String)) (i : Nat), 5 < i + links.length →
      links ≠ [] →
      linkLibraries links i
        = Except.error "Can not link more than 5 libraries with Blockscout API" := by
  intro links
  induction links with
  | nil => intro i _ hne; exact absurd rfl hne
  | cons kv rest ih =>
    intro i hlen _
    obtain ⟨k, v⟩ := kv
    by_cases hi : i < 5
    · have hrest : rest ≠ [] := by
        intro hnil
        subst hnil
        simp at hlen
        omega
      have := ih (i + 1) (by simp at hlen ⊢; omega) hrest
      simp [linkLibraries, hi, this]
    · simp [linkLibraries, hi]

/-- With more than 5 linked libraries the request construction throws before
reaching the POST: the result is an error and the trace holds exactly the
constructor-argument GET. -/
theorem sendVerifyRequest_overflow (a : Artifact) (opts : Options)
    (address : String) (env : ContractEnv)
    (hl : 5 < ((networkEntry a opts.networkId).elim [] NetworkEntry.links).length) :
    (∃ e, (sendVerifyRequest a opts address env).1 = Except.error e)
    ∧ (sendVerifyRequest a opts address env).2 = [Req.getTxList address] := by
  have hne : (networkEntry a opts.networkId).elim [] NetworkEntry.links ≠ [] := by
    intro hnil
    rw [hnil] at hl
    simp at hl
  have hlib := linkLibraries_overflow
    ((networkEntry a opts.networkId).elim [] NetworkEntry.links) 0
    (by omega) hne
  have hreqs := fetchConstructorValues_reqs a address env.tx
  cases hcv : (fetchConstructorValues a address env.tx).1 with
  | error e =>
    constructor
    · exact ⟨e, by simp [sendVerifyRequest, hcv]⟩
    · simp [sendVerifyRequest, hcv, hreqs]
  | ok args =>
    cases hms : fetchMergedSource a opts env.sourceExists env.mergedBody with
    | error e =>
      constructor
      · exact ⟨e, by simp [sendVerifyRequest, hcv, hms]⟩
      · simp [sendVerifyRequest, hcv, hms, hreqs]
    | ok merged =>
      constructor
      · refine ⟨"Can not link more than 5 libraries with Blockscout API", ?_⟩
        simp [sendVerifyRequest, hcv, hms, hlib]
      · simp [sendVerifyRequest, hcv, hms, hlib, hreqs]

theorem verifyContract_overflow (a : Artifact) (opts : Options)
    (env : ContractEnv) (entry : NetworkEntry)
    (hn : networkEntry a opts.networkId = some entry)
    (hl : 5 < entry.links.length) :
    (∃ e, (verifyContract a opts env).1 = Except.error e)
    ∧ (verifyContract a opts env).2
        = [Req.getTxList (entryAddress entry)] := by
  have hl' : 5 < ((networkEntry a opts.networkId).elim []
      NetworkEntry.links).length := by rw [hn]; exact hl
  obtain ⟨⟨e, he⟩, htr⟩ :=
    sendVerifyRequest_overflow a opts (entryAddress entry) env hl'
  constructor
  · exact ⟨e, by simp [verifyContract, hn, he]⟩
  · simp [verifyContract, hn, he, htr]

/-- C4 (amended): with more than 5 linked libraries for the target network,
request construction does fail with the library-limit error before the
verification POST — no `postVerify` request ever appears in the contract's
trace — but not before every HTTP call: the status-check GETs and the
constructor-argument GET may already have been issued. -/
theorem library_limit_no_post (opts : Options) (env : ContractEnv)
    (a : Artifact) (entry : NetworkEntry)
    (ha : env.artifact = some a)
    (hn : networkEntry a opts.networkId = some entry)
    (hl : 5 < entry.links.length) :
    ∀ fields, Req.postVerify fields ∉ (processContract opts env).2 := by
  intro fields hmem
  obtain ⟨⟨e, he⟩, htr⟩ := verifyContract_overflow a opts env entry hn hl
  cases hda : deployedAddress a opts.networkId with
  | none => simp [processContract, ha, hda] at hmem
  | some addr =>
    have hgs := checkLoop_reqs addr env.status1 retries 0
    cases hc : (checkVerificationStatus addr env.status1).1 with
    | error msg =>
      simp [processContract, ha, hda, hc] at hmem
      exact absurd (hgs _ hmem) (by simp)
    | ok s =>
      by_cases hs : s = VerificationStatus.ALREADY_VERIFIED
      · simp [processContract, ha, hda, hc, hs] at hmem
        exact absurd (hgs _ hmem) (by simp)
      · simp [processContract, ha, hda, hc, hs, he, htr] at hmem
        exact absurd (hgs _ hmem) (by simp)

def entrySixLibs : NetworkEntry :=
  { address := some "0xdef1"
    links := [("L1", "0xa1"), ("L2", "0xa2"), ("L3", "0xa3"),
              ("L4", "0xa4"), ("L5", "0xa5"), ("L6", "0xa6")] }

def artSixLibs : Artifact :=
  { contractName := "Pool"
    bytecode := "0x60"
    compilerVersion := "0.5.8+commit.23d335f2"
    sourcePath := "contracts/Pool.sol"
    networks := some [("77", entrySixLibs)] }

def envSixLibs : ContractEnv :=
  { artifact := some artSixLibs
    status1 := fun _ => GetSourceResp.result none
    tx := TxListResp.resp (some { status := "1", input := "0x60606040" })
    sourceExists := true
    mergedBody := "contract Pool"
    proxy := ProxyResp.throw
    post := PostResp.throw
    status2 := fun _ => GetSourceResp.result none }

/-- Counterexample to C4 as stated: for this artifact with 6 linked
libraries, the contract's request trace does contain the constructor-argument
GET (and five status-check GETs before it) — the library-limit error is
raised only after those HTTP calls, not before any HTTP call. -/
theorem library_limit_http_counterexample :
    (processContract optsBase envSixLibs).1 = ContractOutcome.failed
    ∧ Req.getTxList "0xdef1" ∈ (processContract optsBase envSixLibs).2 := by
  decide

/-- Witness for the amended C4 at the 6-library environment: no verification
POST appears in its trace. -/
theorem library_limit_no_post_witness :
    Req.postVerify [] ∉ (processContract optsBase envSixLibs).2 :=
  library_limit_no_post optsBase envSixLibs artSixLibs entrySixLibs rfl rfl
    (by decide) []

/-! ## Claim theorems: the proxy address -/

/-- No library field key ever equals `proxyAddress` (they all start with
`library`). -/
theorem libraryKey_ne_proxyAddress (x y : String) :
    ("library" ++ x ++ y) ≠ "proxyAddress" := by
  intro h
  have hd := congrArg String.data h
  rw [String.data_append, String.data_append] at hd
  have h1 : "library".data = ['l', 'i', 'b', 'r', 'a', 'r', 'y'] := rfl
  have h2 : "proxyAddress".data
      = ['p', 'r', 'o', 'x', 'y', 'A', 'd', 'd', 'r', 'e', 's', 's'] := rfl
  rw [h1, h2] at hd
  simp at hd

theorem linkLibraries_no_proxyAddress :
    ∀ (links : List (String × String)) (i : Nat)
      (fields : List (String × String)),
      linkLibraries links i = Except.ok fields →
      ∀ v, ("proxyAddress", v) ∉ fields := by
  intro links
  induction links with
  | nil =>
    intro i fields h v
    simp only [linkLibraries, Except.ok.injEq] at h
    rw [← h]
    exact List.not_mem_nil _
  | cons kv rest ih =>
    intro i fields h v
    obtain ⟨k, w⟩ := kv
    by_cases hi : i < 5
    · cases hrec : linkLibraries rest (i + 1) with
      | error e => simp [linkLibraries, hi, hrec] at h
      | ok fs =>
        simp only [linkLibraries, if_pos hi, hrec, Except.ok.injEq] at h
        rw [← h]
        intro hmem
        rcases List.mem_cons.mp hmem with heq | hmem2
        · exact libraryKey_ne_proxyAddress _ _ (congrArg Prod.fst heq).symm
        · rcases List.mem_cons.mp hmem2 with heq | hmem3
          · exact libraryKey_ne_proxyAddress _ _ (congrArg Prod.fst heq).symm
          · exact ih (i + 1) fs hrec v hmem3
    · simp [linkLibraries, hi] at h

/-- C9: a failing proxy-registry lookup is non-fatal — `getProxyAddress`
yields the no-proxy value instead of raising — and in that case the
verification POST payload is built without any `proxyAddress` field. -/
theorem proxy_lookup_nonfatal (a : Artifact) (opts : Options)
    (address : String) (env : ContractEnv)
    (h : env.proxy = ProxyResp.throw) :
    getProxyAddress env.proxy = none
    ∧ ∀ fields,
        Req.postVerify fields ∈ (sendVerifyRequest a opts address env).2 →
        ∀ v, ("proxyAddress", v) ∉ fields := by
  refine ⟨by rw [h]; rfl, ?_⟩
  intro fields hmem v
  have hreqs := fetchConstructorValues_reqs a address env.tx
  cases hcv : (fetchConstructorValues a address env.tx).1 with
  | error e => simp [sendVerifyRequest, hcv, hreqs] at hmem
  | ok args =>
    cases hms : fetchMergedSource a opts env.sourceExists env.mergedBody with
    | error e => simp [sendVerifyRequest, hcv, hms, hreqs] at hmem
    | ok merged =>
      cases hlib : linkLibraries
          ((networkEntry a opts.networkId).elim [] NetworkEntry.links) 0 with
      | error e => simp [sendVerifyRequest, hcv, hms, hlib, hreqs] at hmem
      | ok libFields =>
        simp [sendVerifyRequest, hcv, hms, hlib, hreqs, h, getProxyAddress,
          jsTruthy] at hmem
        rw [hmem]
        intro hfmem
        simp only [List.mem_cons] at hfmem
        rcases hfmem with heq | heq | heq | heq | heq | heq | heq | hfs
        · simp at heq
        · simp at heq
        · simp at heq
        · simp at heq
        · simp at heq
        · simp at heq
        · simp at heq
        · exact linkLibraries_no_proxyAddress _ 0 libFields hlib v hfs

def envProxyThrow : ContractEnv :=
  { artifact := some artDeployed
    status1 := fun _ => GetSourceResp.result none
    tx := TxListResp.resp (some { status := "1", input := "0x6080ABCD" })
    sourceExists := true
    mergedBody := "contract Token"
    proxy := ProxyResp.throw
    post := PostResp.resp (some { status := "1", result := "" })
    status2 := fun _ => GetSourceResp.result (some "src") }

def proxyWitnessFields : List (String × String) :=
  [("addressHash", "0xfeed"),
   ("contractSourceCode", "contract Token"),
   ("name", "Token"),
   ("compilerVersion", "v0.5.8+commit.23d335f2"),
   ("optimization", "false"),
   ("optimizationRuns", "200"),
   ("constructorArguments", "ABCD")]

/-- Witness for C9: with a rejecting proxy lookup, the POST payload actually
issued for `artDeployed` carries no `proxyAddress` field. -/
theorem proxy_lookup_nonfatal_witness :
    getProxyAddress envProxyThrow.proxy = none
    ∧ ("proxyAddress", "0xfeed") ∉ proxyWitnessFields :=
  ⟨(proxy_lookup_nonfatal artDeployed optsBase "0xfeed" envProxyThrow rfl).1,
   (proxy_lookup_nonfatal artDeployed optsBase "0xfeed" envProxyThrow rfl).2
     proxyWitnessFields (by decide) "0xfeed"⟩

/-! ## Claim theorems: the artifact loader cache -/

/-- C7 (amended): `getArtifact` checks file existence against the current
disk on every call, but the parsed contents come from Node's `require`
cache whenever the path was loaded before — the call returns the cached
contents unchanged, whatever the disk now holds. -/
theorem getArtifact_returns_cached (contractName contractsBuildDir : String)
    (disk : Disk) (cache : RequireCache) (cached : Artifact)
    (hc : cache.entries.lookup (artifactPath contractsBuildDir contractName)
      = some cached)
    (hd : (disk.files.lookup
      (artifactPath contractsBuildDir contractName)).isSome = true) :
    getArtifact contractName contractsBuildDir disk cache
      = (Except.ok cached, cache) := by
  unfold getArtifact
  cases hdf : disk.files.lookup (artifactPath contractsBuildDir contractName) with
  | none => rw [hdf] at hd; simp at hd
  | some onDisk => simp [hdf, hc]

def diskV1 : Disk := ⟨[(artifactPath "build/contracts" "Token", artDeployed)]⟩

def diskV2 : Disk := ⟨[(artifactPath "build/contracts" "Token", artNoNetworks)]⟩

/-- Counterexample to C7 as stated: the first call loads the artifact from
disk and populates the require cache; after the on-disk contents change, a
second call with the same name and options still returns the first call's
contents, not the new ones. -/
theorem getArtifact_not_rereading_counterexample :
    (getArtifact "Token" "build/contracts" diskV1 ⟨[]⟩).1
      = Except.ok artDeployed
    ∧ (getArtifact "Token" "build/contracts" diskV2
        (getArtifact "Token" "build/contracts" diskV1 ⟨[]⟩).2).1
      = Except.ok artDeployed
    ∧ artDeployed ≠ artNoNetworks := by
  refine ⟨rfl, rfl, by decide⟩

/-- Witness for the amended C7: with the path already in the require cache,
the call ignores the changed disk contents and returns the cached artifact. -/
theorem getArtifact_returns_cached_witness :
    getArtifact "Token" "build/contracts" diskV2
        ⟨[(artifactPath "build/contracts" "Token", artDeployed)]⟩
      = (Except.ok artDeployed,
         ⟨[(artifactPath "build/contracts" "Token", artDeployed)]⟩) :=
  getArtifact_returns_cached "Token" "build/contracts" diskV2
    ⟨[(artifactPath "build/contracts" "Token", artDeployed)]⟩ artDeployed
    rfl rfl

/-! ## Claim theorems: the directory scan -/

/-- The names of matching files found directly in the top-level folder. -/
def topLevelMatches (entries : List FsEntry) (ext : String) : List String :=
  entries.filterMap fun e =>
    match e with
    | FsEntry.file f => if parseExt f = ext then some (parseName f) else none
    | FsEntry.dir _ _ => none

/-- C8: the scan returns exactly the matching names of the top-level folder;
a subdirectory entry contributes nothing to the result, so artifacts inside
subdirectories are never listed. -/
theorem fromDir_top_level_only (entries : List FsEntry) (ext : String) :
    fromDir entries ext = topLevelMatches entries ext
    ∧ ∀ (name : String) (sub rest : List FsEntry),
        fromDir (FsEntry.dir name sub :: rest) ext = fromDir rest ext := by
  constructor
  · induction entries with
    | nil => simp [fromDir, topLevelMatches]
    | cons e rest ih =>
      cases e with
      | file f =>
        by_cases hf : parseExt f = ext <;>
          simp [fromDir, topLevelMatches, List.filterMap_cons, hf] <;>
          simpa [topLevelMatches] using ih
      | dir n sub =>
        simp [fromDir, topLevelMatches, List.filterMap_cons]
        simpa [topLevelMatches] using ih
  · intro name sub rest
    simp [fromDir]
